import Mathlib

/-!
Shallow embedding of the llama-api model-lifecycle core: the ModelStatus
enumeration, the Model entity and its transition methods, the
ModelInfoBuilder validation, the file-backed model repository
(save/get round trip over the persisted registry document), the
TransformersLoader (loaded-model map, load/unload/generate), and the
ModelService orchestration (setupModel, generateText, getModelStatus).
Timestamps (new Date()) are modelled as Nat parameters supplied by the
caller; percentages are modelled as exact rationals.
-/

namespace LlamaApi

/-- The six lifecycle states of src/domain/value-objects/model-status.ts. -/
inductive ModelStatus where
  | notDownloaded
  | downloading
  | downloaded
  | loading
  | loaded
  | error
deriving DecidableEq, Repr

/-- The string value of each enum member in the source. -/
def ModelStatus.toStr : ModelStatus → String
  | .notDownloaded => "not_downloaded"
  | .downloading => "downloading"
  | .downloaded => "downloaded"
  | .loading => "loading"
  | .loaded => "loaded"
  | .error => "error"

/-- ModelInfo from src/domain/value-objects/model-info.ts. The description
and sizeGB fields are optional at runtime: the builder never validates
them, so a built descriptor may lack both. -/
structure ModelInfo where
  name : String
  huggingFaceId : String
  version : String
  description : Option String
  localPath : String
  modelType : String
  sizeGB : Option Rat
  requiredFiles : List String
deriving DecidableEq, Repr

/-- The Model entity of src/domain/entities/model.ts: a descriptor plus
mutable status, optional error message and optional loadedAt timestamp. -/
structure Model where
  info : ModelInfo
  status : ModelStatus
  errorMessage : Option String
  loadedAt : Option Nat
deriving DecidableEq, Repr

namespace Model

/-- constructor(info): status starts at NOT_DOWNLOADED, no error, no
timestamp. -/
def new (info : ModelInfo) : Model :=
  { info := info, status := .notDownloaded, errorMessage := none, loadedAt := none }

/-- get isReady(): status === LOADED. -/
def isReady (m : Model) : Bool :=
  m.status = ModelStatus.loaded

/-- markDownloading(): sets DOWNLOADING and clears the error message. -/
def markDownloading (m : Model) : Model :=
  { m with status := .downloading, errorMessage := none }

/-- markDownloaded(): sets DOWNLOADED and clears the error message. -/
def markDownloaded (m : Model) : Model :=
  { m with status := .downloaded, errorMessage := none }

/-- markLoading(): sets LOADING and clears the error message. -/
def markLoading (m : Model) : Model :=
  { m with status := .loading, errorMessage := none }

/-- markLoaded(): sets LOADED, records the current time as loadedAt and
clears the error message; the time is passed in as now. -/
def markLoaded (m : Model) (now : Nat) : Model :=
  { m with status := .loaded, loadedAt := some now, errorMessage := none }

/-- markError(error): sets ERROR and records the message. -/
def markError (m : Model) (e : String) : Model :=
  { m with status := .error, errorMessage := some e }

end Model

/-- Unordered string-keyed maps (JS Map and JSON objects) are embedded as
association lists in insertion order. set replaces the value in place when
the key is present and appends otherwise, matching Map.prototype.set and
object property assignment. -/
def alistSet {α : Type} (l : List (String × α)) (k : String) (v : α) :
    List (String × α) :=
  if l.any (fun kv => kv.1 = k) then
    l.map (fun kv => if kv.1 = k then (k, v) else kv)
  else
    l ++ [(k, v)]

/-- Key membership, matching Map.prototype.has and the in test. -/
def alistHas {α : Type} (l : List (String × α)) (k : String) : Bool :=
  l.any (fun kv => kv.1 = k)

/-- First value stored under the key, matching Map.prototype.get and
object property lookup. -/
def alistGet {α : Type} (l : List (String × α)) (k : String) : Option α :=
  (l.find? (fun kv => kv.1 = k)).map Prod.snd

/-- ModelInfoBuilder from src/domain/value-objects/model-info.ts: a record
of Partial ModelInfo fields, each setter fills one field. -/
structure ModelInfoBuilder where
  name : Option String := none
  huggingFaceId : Option String := none
  version : Option String := none
  description : Option String := none
  localPath : Option String := none
  modelType : Option String := none
  sizeGB : Option Rat := none
  requiredFiles : Option (List String) := none
deriving DecidableEq, Repr

namespace ModelInfoBuilder

def setName (b : ModelInfoBuilder) (s : String) : ModelInfoBuilder :=
  { b with name := some s }

def setHuggingFaceId (b : ModelInfoBuilder) (s : String) : ModelInfoBuilder :=
  { b with huggingFaceId := some s }

def setVersion (b : ModelInfoBuilder) (s : String) : ModelInfoBuilder :=
  { b with version := some s }

/-- setDescription: in getModel the argument is the stored optional field,
so the setter is modelled as copying an optional value through. -/
def setDescriptionOpt (b : ModelInfoBuilder) (s : Option String) : ModelInfoBuilder :=
  { b with description := s }

def setLocalPath (b : ModelInfoBuilder) (s : String) : ModelInfoBuilder :=
  { b with localPath := some s }

def setModelType (b : ModelInfoBuilder) (s : String) : ModelInfoBuilder :=
  { b with modelType := some s }

def setSizeGBOpt (b : ModelInfoBuilder) (s : Option Rat) : ModelInfoBuilder :=
  { b with sizeGB := s }

def setRequiredFiles (b : ModelInfoBuilder) (fs : List String) : ModelInfoBuilder :=
  { b with requiredFiles := some fs }

/-- JS falsiness of an optional string field: absent or the empty string
(an absent field reads as undefined, which is falsy exactly like ""). -/
def strFalsy (o : Option String) : Bool :=
  o.getD "" = ""

/-- build(): throws when any of name, huggingFaceId, version, localPath,
modelType is falsy or requiredFiles is undefined, then casts the partial
record. An empty string is falsy; an empty array is truthy, so a present
empty requiredFiles list passes the check. -/
def build (b : ModelInfoBuilder) : Except String ModelInfo :=
  if strFalsy b.name || strFalsy b.huggingFaceId || strFalsy b.version ||
      strFalsy b.localPath || strFalsy b.modelType || b.requiredFiles.isNone then
    .error "Missing required ModelInfo fields"
  else
    .ok { name := b.name.getD "", huggingFaceId := b.huggingFaceId.getD "",
          version := b.version.getD "", description := b.description,
          localPath := b.localPath.getD "", modelType := b.modelType.getD "",
          sizeGB := b.sizeGB, requiredFiles := b.requiredFiles.getD [] }

end ModelInfoBuilder

/-- The serialized form Model.toJSON() writes into the registry document:
info, status string, optional error message, optional timestamp, isReady. -/
structure StoredModel where
  info : ModelInfo
  status : String
  errorMessage : Option String
  loadedAt : Option Nat
  isReady : Bool
deriving DecidableEq, Repr

/-- Model.toJSON(). -/
def Model.toJSON (m : Model) : StoredModel :=
  { info := m.info, status := m.status.toStr, errorMessage := m.errorMessage,
    loadedAt := m.loadedAt, isReady := m.isReady }

/-- The persisted registry document of FileModelRepository: a JSON object
mapping model name to serialized record. -/
abbrev Registry : Type := List (String × StoredModel)

/-- FileModelRepository.saveModel: upserts model.toJSON() under the model
name and rewrites the document. -/
def FileModelRepository.saveModel (reg : Registry) (m : Model) : Registry :=
  alistSet reg m.info.name m.toJSON

/-- FileModelRepository.getModel: looks the name up in the document; when
absent it falls back to the static catalog (getKnownModel, passed in as a
function) and persists the fresh record; when present it rebuilds the
descriptor through ModelInfoBuilder (a failed build is caught and yields
none), starts a fresh Model and replays only the stored statuses
downloaded, loaded and error - every other stored status leaves the
rebuilt record at NOT_DOWNLOADED. The markLoaded replay stamps a fresh
time now. Returns the found record and the possibly updated document. -/
def FileModelRepository.getModel (known : String → Option Model) (reg : Registry)
    (name : String) (now : Nat) : Option Model × Registry :=
  match alistGet reg name with
  | none =>
    match known name with
    | some k => (some k, FileModelRepository.saveModel reg k)
    | none => (none, reg)
  | some modelData =>
    let b := ({} : ModelInfoBuilder)
      |>.setName modelData.info.name
      |>.setHuggingFaceId modelData.info.huggingFaceId
      |>.setVersion modelData.info.version
      |>.setDescriptionOpt modelData.info.description
      |>.setLocalPath modelData.info.localPath
      |>.setModelType modelData.info.modelType
      |>.setSizeGBOpt modelData.info.sizeGB
      |>.setRequiredFiles modelData.info.requiredFiles
    match b.build with
    | .error _ => (none, reg)
    | .ok modelInfo =>
      let m := Model.new modelInfo
      let m :=
        if modelData.status = "downloaded" then m.markDownloaded
        else if modelData.status = "loaded" then m.markLoaded now
        else if modelData.status = "error" then
          m.markError (match modelData.errorMessage with
            | some s => if s = "" then "Unknown error" else s
            | none => "Unknown error")
        else m
      (some m, reg)

/-- GenerationRequest from src/domain/value-objects/generation-request.ts. -/
structure GenerationRequest where
  prompt : String
  maxTokens : Option Nat := none
  temperature : Option Rat := none
  topP : Option Rat := none
  topK : Option Nat := none
  repetitionPenalty : Option Rat := none
  doSample : Option Bool := none
deriving DecidableEq, Repr

/-- GenerationResponse; the Date timestamp is a Nat. -/
structure GenerationResponse where
  text : String
  tokensUsed : Nat
  processingTimeMs : Nat
  model : String
  timestamp : Nat
deriving DecidableEq, Repr

/-- A loaded pipeline handle: given a request it either produces generated
text or raises (Except.error carries the thrown message). -/
abbrev Pipeline : Type := GenerationRequest → Except String String

/-- The in-memory state of TransformersLoader: the loadedModels Map in
insertion order. -/
abbrev LoadedModels : Type := List (String × Pipeline)

/-- TransformersLoader.loadModel: awaits pipeline(modelType, hfId, opts)
(modelled as a factory outcome supplied by the environment); on success
stores the pipe under the model name and returns true, on a raised error
returns false and leaves the map unchanged. -/
def TransformersLoader.loadModel (factory : Except String Pipeline)
    (m : Model) (lm : LoadedModels) : Bool × LoadedModels :=
  match factory with
  | .ok pipe => (true, alistSet lm m.info.name pipe)
  | .error _ => (false, lm)

/-- TransformersLoader.unloadModel: deletes the entry when present and
returns true. -/
def TransformersLoader.unloadModel (lm : LoadedModels) (name : String) :
    Bool × LoadedModels :=
  (true, lm.filter (fun kv => kv.1 ≠ name))

/-- TransformersLoader.isModelLoaded. -/
def TransformersLoader.isModelLoaded (lm : LoadedModels) (name : String) : Bool :=
  alistHas lm name

/-- TransformersLoader.generate: takes the FIRST entry of the loadedModels
map regardless of which record the service marks current; throws when the
map is empty; runs the pipe, estimates tokensUsed by splitting the text on
spaces, and stamps the response with that first model name. elapsed and
now stand for the measured wall time and Date timestamp. -/
def TransformersLoader.generate (lm : LoadedModels) (req : GenerationRequest)
    (elapsed now : Nat) : Except String GenerationResponse :=
  match lm with
  | [] => .error "No model loaded"
  | (modelName, pipe) :: _ =>
    match pipe req with
    | .ok generatedText =>
      .ok { text := generatedText,
            tokensUsed := (generatedText.splitOn " ").length,
            processingTimeMs := elapsed, model := modelName, timestamp := now }
    | .error e => .error ("Generation failed: " ++ e)

/-- SetupModelResult from src/application/services/model-service.ts. -/
structure SetupModelResult where
  success : Bool
  model : Option String := none
  status : Option ModelStatus := none
  error : Option String := none
deriving DecidableEq, Repr

/-- GenerationResult from src/application/services/model-service.ts. -/
structure GenerationResult where
  success : Bool
  response : Option GenerationResponse := none
  error : Option String := none
deriving DecidableEq, Repr

/-- The environment one setupModel call runs against: what the repository
returns for the requested name, whether downloader.download resolves true,
the progress values the downloader feeds its callback, the outcome of the
pipeline() call inside loadModel, and the clock value used by
markLoaded. -/
structure SetupEnv where
  getModel : Option Model
  downloadSuccess : Bool
  downloadEvents : List Rat
  pipelineFactory : Except String Pipeline
  now : Nat

/-- Everything one setupModel call produces: its result, the service
currentModel afterwards, the loader map afterwards, every model passed to
repository.saveModel in order, every (percent, stage) pair delivered to
onProgress in order, and whether downloader.download and loader.loadModel
were invoked. -/
structure SetupTrace where
  result : SetupModelResult
  currentModel : Option Model
  loadedModels : LoadedModels
  saved : List Model
  progress : List (Rat × String)
  downloaderInvoked : Bool
  loaderLoadInvoked : Bool

/-- The load half of setupModel (the block guarded by status ===
DOWNLOADED, then the final progress(100) and success return). model is the
record as left by the download half; progress, saved and dl accumulate
what that half already produced. -/
def ModelService.setupLoadPhase (env : SetupEnv) (cur : Option Model)
    (lm : LoadedModels) (modelName : String) (model : Model)
    (progress : List (Rat × String)) (saved : List Model) (dl : Bool) :
    SetupTrace :=
  if model.status = ModelStatus.downloaded then
    let p2 := progress ++ [((70 : Rat), "Loading model into memory...")]
    let m3 := model.markLoading
    match env.pipelineFactory with
    | .ok pipe =>
      let m5 := m3.markLoaded env.now
      { result := { success := true, model := some modelName, status := some m5.status },
        currentModel := some m5, loadedModels := alistSet lm m3.info.name pipe,
        saved := saved ++ [m3, m5],
        progress := p2 ++ [((100 : Rat), "Model ready!")],
        downloaderInvoked := dl, loaderLoadInvoked := true }
    | .error _ =>
      let m4 := m3.markError "Loading failed"
      { result := { success := false, error := some "Loading failed" },
        currentModel := cur, loadedModels := lm, saved := saved ++ [m3, m4],
        progress := p2, downloaderInvoked := dl, loaderLoadInvoked := true }
  else
    { result := { success := true, model := some modelName, status := some model.status },
      currentModel := cur, loadedModels := lm, saved := saved,
      progress := progress ++ [((100 : Rat), "Model ready!")],
      downloaderInvoked := dl, loaderLoadInvoked := false }

/-- ModelService.setupModel: resolve the record, short-circuit when it is
ready and the loader still holds a handle, otherwise run the download
block (guarded by status === NOT_DOWNLOADED, rescaling downloader progress
p to 10 + p * 0.6) and then the load block. cur and lm are the service and
loader state the call starts from. -/
def ModelService.setupModel (env : SetupEnv) (cur : Option Model)
    (lm : LoadedModels) (modelName : String) : SetupTrace :=
  match env.getModel with
  | none =>
    { result := { success := false,
                  error := some ("Model " ++ modelName ++ " not found in registry") },
      currentModel := cur, loadedModels := lm, saved := [],
      progress := [((0 : Rat), "Initializing...")],
      downloaderInvoked := false, loaderLoadInvoked := false }
  | some model =>
    if model.isReady && TransformersLoader.isModelLoaded lm modelName then
      { result := { success := true, model := some modelName, status := some model.status },
        currentModel := some model, loadedModels := lm, saved := [],
        progress := [((0 : Rat), "Initializing...")],
        downloaderInvoked := false, loaderLoadInvoked := false }
    else
      if model.status = ModelStatus.notDownloaded then
        if env.downloadSuccess then
          ModelService.setupLoadPhase env cur lm modelName
            model.markDownloading.markDownloaded
            ([((0 : Rat), "Initializing...")] ++
              [((10 : Rat), "Downloading model...")] ++
              env.downloadEvents.map
                (fun p => ((10 : Rat) + p * (0.6 : Rat), "Downloading model...")))
            [model.markDownloading, model.markDownloading.markDownloaded] true
        else
          { result := { success := false, error := some "Download failed" },
            currentModel := cur, loadedModels := lm,
            saved := [model.markDownloading,
                      model.markDownloading.markError "Download failed"],
            progress := [((0 : Rat), "Initializing...")] ++
              [((10 : Rat), "Downloading model...")] ++
              env.downloadEvents.map
                (fun p => ((10 : Rat) + p * (0.6 : Rat), "Downloading model...")),
            downloaderInvoked := true, loaderLoadInvoked := false }
      else
        ModelService.setupLoadPhase env cur lm modelName model
          [((0 : Rat), "Initializing...")] [] false

/-- What generateText produces: its result and whether loader.generate and
downloader.download were invoked (the method never touches the
downloader). -/
structure GenerateTrace where
  result : GenerationResult
  loaderGenerateInvoked : Bool
  downloaderInvoked : Bool
deriving Repr

/-- ModelService.generateText: rejects when no current model is set or it
is not ready, otherwise delegates to loader.generate and converts a thrown
error into a failure result. -/
def ModelService.generateText (cur : Option Model) (lm : LoadedModels)
    (req : GenerationRequest) (elapsed now : Nat) : GenerateTrace :=
  match cur with
  | none =>
    { result := { success := false, error := some "No model loaded" },
      loaderGenerateInvoked := false, downloaderInvoked := false }
  | some m =>
    if m.isReady then
      match TransformersLoader.generate lm req elapsed now with
      | .ok response =>
        { result := { success := true, response := some response },
          loaderGenerateInvoked := true, downloaderInvoked := false }
      | .error e =>
        { result := { success := false, error := some e },
          loaderGenerateInvoked := true, downloaderInvoked := false }
    else
      { result := { success := false, error := some "No model loaded" },
        loaderGenerateInvoked := false, downloaderInvoked := false }

/-- The record ModelService.getModelStatus returns. -/
structure StatusReport where
  model : Option String
  status : Option ModelStatus
  ready : Bool
deriving DecidableEq, Repr

/-- ModelService.getModelStatus: a pure read of the current model. -/
def ModelService.getModelStatus (cur : Option Model) : StatusReport :=
  match cur with
  | none => { model := none, status := none, ready := false }
  | some m => { model := some m.info.name, status := some m.status, ready := m.isReady }

/-- A fixed valid descriptor used for concrete instantiations. -/
def sampleInfo : ModelInfo :=
  { name := "gpt2-small", huggingFaceId := "Xenova/gpt2", version := "1.0",
    description := some "GPT-2 small", localPath := "./models/gpt2-small",
    modelType := "text-generation", sizeGB := some (1/2),
    requiredFiles := ["config.json", "tokenizer.json"] }

/-- A fixed pipeline handle for concrete instantiations. -/
def samplePipe : Pipeline := fun _ => .ok "hello world"

/-- Claim C2 counterexample: markLoaded() on a record in state
NotDownloaded does yield a record whose state is Loaded; nothing rejects
or flags the out-of-order transition. -/
theorem c2_counterexample :
    (Model.new sampleInfo).status = ModelStatus.notDownloaded ∧
    ((Model.new sampleInfo).markLoaded 5).status = ModelStatus.loaded := by
  exact ⟨rfl, rfl⟩

/-- Claim C2 amended: markLoaded() is accepted from every state, not only
from Loading: it unconditionally sets the state to Loaded, records the
activation timestamp and clears the error message; in particular a record
in state NotDownloaded becomes Loaded. -/
theorem c2_markLoaded_unconditional (m : Model) (now : Nat) :
    (m.markLoaded now).status = ModelStatus.loaded ∧
    (m.markLoaded now).loadedAt = some now ∧
    (m.markLoaded now).errorMessage = none := by
  exact ⟨rfl, rfl, rfl⟩

/-- Claim C8 counterexample: after markLoaded then markDownloading the
record is in state Downloading yet still carries the activation
timestamp, so the timestamp is not present iff the state is Loaded. -/
theorem c8_counterexample :
    (((Model.new sampleInfo).markLoaded 3).markDownloading).status ≠
      ModelStatus.loaded ∧
    (((Model.new sampleInfo).markLoaded 3).markDownloading).loadedAt = some 3 := by
  exact ⟨by decide, rfl⟩

/-- Claim C8 amended: markLoaded() sets the activation timestamp, but the
re-entry transitions markDownloading, markDownloaded and markLoading
clear only the error message and leave the timestamp unchanged (as does
markError), so a timestamp can persist in states other than Loaded. -/
theorem c8_timestamp_not_cleared (m : Model) (now : Nat) (e : String) :
    (m.markLoaded now).loadedAt = some now ∧
    m.markDownloading.loadedAt = m.loadedAt ∧
    m.markDownloaded.loadedAt = m.loadedAt ∧
    m.markLoading.loadedAt = m.loadedAt ∧
    (m.markError e).loadedAt = m.loadedAt := by
  exact ⟨rfl, rfl, rfl, rfl, rfl⟩

/-- A builder with every string field set non-empty and the required-file
list set to the empty list. -/
def emptyFilesBuilder : ModelInfoBuilder :=
  (({} : ModelInfoBuilder).setName "m").setHuggingFaceId "org/m"
    |>.setVersion "1.0" |>.setLocalPath "./models/m"
    |>.setModelType "text-generation" |>.setRequiredFiles []

/-- Claim C9 counterexample: a descriptor whose required-artifact list is
the empty list passes build() - an empty array is truthy in the
validation check - contradicting the claim that it fails validation. -/
theorem c9_counterexample :
    emptyFilesBuilder.requiredFiles = some [] ∧
    emptyFilesBuilder.build.isOk = true := by
  exact ⟨rfl, rfl⟩

/-- Claim C9 amended: build() fails, with the single error message, iff
any of name, acquisition identifier, version, local path or
generation-kind is missing or the empty string, or the required-artifact
list is missing entirely; a present but empty required-artifact list
passes validation. -/
theorem c9_build_characterization (b : ModelInfoBuilder) :
    b.build = Except.error "Missing required ModelInfo fields" ↔
      (b.name.getD "" = "" ∨ b.huggingFaceId.getD "" = "" ∨
       b.version.getD "" = "" ∨ b.localPath.getD "" = "" ∨
       b.modelType.getD "" = "" ∨ b.requiredFiles = none) := by
  unfold ModelInfoBuilder.build ModelInfoBuilder.strFalsy
  split
  next h =>
    simp only [Bool.or_eq_true, decide_eq_true_eq, Option.isNone_iff_eq_none] at h
    constructor
    · intro _
      tauto
    · intro _
      rfl
  next h =>
    simp only [Bool.or_eq_true, decide_eq_true_eq, Option.isNone_iff_eq_none] at h
    constructor
    · intro hc
      exact absurd hc (by simp)
    · intro hc
      exact absurd (by tauto) h

/-- Claim C9 witness: instantiating the characterization at a builder
missing its version shows build() rejecting it with the single error. -/
theorem c9_witness :
    (({} : ModelInfoBuilder).setName "m").build =
      Except.error "Missing required ModelInfo fields" := by
  exact (c9_build_characterization _).mpr (Or.inr (Or.inl rfl))

/-- Claim C1 amended: for a record whose persisted state is Error, a new
setupModel call does NOT resume the lifecycle: the download block is
guarded by status === NOT_DOWNLOADED and the load block by status ===
DOWNLOADED, so an Error record skips both, invokes neither the downloader
nor the loader, persists nothing, leaves the current model and the loader
map untouched, and returns success with the state still Error. -/
theorem c1_setup_error_skips_lifecycle (env : SetupEnv) (cur : Option Model)
    (lm : LoadedModels) (modelName : String) (m : Model)
    (hget : env.getModel = some m) (herr : m.status = ModelStatus.error) :
    (ModelService.setupModel env cur lm modelName).result.success = true ∧
    (ModelService.setupModel env cur lm modelName).result.status =
      some ModelStatus.error ∧
    (ModelService.setupModel env cur lm modelName).downloaderInvoked = false ∧
    (ModelService.setupModel env cur lm modelName).loaderLoadInvoked = false ∧
    (ModelService.setupModel env cur lm modelName).saved = [] ∧
    (ModelService.setupModel env cur lm modelName).currentModel = cur ∧
    (ModelService.setupModel env cur lm modelName).loadedModels = lm := by
  unfold ModelService.setupModel ModelService.setupLoadPhase
  rw [hget]
  simp [Model.isReady, herr]

/-- A setup environment whose repository returns a record already in state
Error from a failed prior download. -/
def errEnv : SetupEnv :=
  { getModel := some ((Model.new sampleInfo).markError "Download failed"),
    downloadSuccess := true, downloadEvents := [],
    pipelineFactory := Except.error "boom", now := 0 }

/-- Claim C1 counterexample: on a record persisted in state Error after a
failed download, setupModel returns success without re-entering
Downloading or Loading - the downloader and loader are never invoked, no
transition is persisted, and the reported status is still Error. -/
theorem c1_counterexample :
    (ModelService.setupModel errEnv none [] "gpt2-small").result.success = true ∧
    (ModelService.setupModel errEnv none [] "gpt2-small").downloaderInvoked = false ∧
    (ModelService.setupModel errEnv none [] "gpt2-small").loaderLoadInvoked = false ∧
    (ModelService.setupModel errEnv none [] "gpt2-small").saved = [] ∧
    (ModelService.setupModel errEnv none [] "gpt2-small").result.status =
      some ModelStatus.error := by
  decide

/-- Claim C1 witness: the amended theorem instantiated at the concrete
Error-state environment. -/
theorem c1_witness :
    (ModelService.setupModel errEnv none [] "gpt2-small").result.success = true ∧
    (ModelService.setupModel errEnv none [] "gpt2-small").result.status =
      some ModelStatus.error ∧
    (ModelService.setupModel errEnv none [] "gpt2-small").downloaderInvoked = false ∧
    (ModelService.setupModel errEnv none [] "gpt2-small").loaderLoadInvoked = false ∧
    (ModelService.setupModel errEnv none [] "gpt2-small").saved = [] ∧
    (ModelService.setupModel errEnv none [] "gpt2-small").currentModel = none ∧
    (ModelService.setupModel errEnv none [] "gpt2-small").loadedModels = [] := by
  exact c1_setup_error_skips_lifecycle errEnv none [] "gpt2-small"
    ((Model.new sampleInfo).markError "Download failed") rfl rfl

/-- Claim C7: setupModel is idempotent once the record is Loaded and the
loader still holds a live handle for the name: the call short-circuits,
marks the record current, reports success with status Loaded, and invokes
neither the downloader nor the loader, persisting nothing and emitting
only the initial progress event. -/
theorem c7_setup_idempotent (env : SetupEnv) (cur : Option Model)
    (lm : LoadedModels) (modelName : String) (m : Model)
    (hget : env.getModel = some m) (hst : m.status = ModelStatus.loaded)
    (hld : TransformersLoader.isModelLoaded lm modelName = true) :
    (ModelService.setupModel env cur lm modelName).result =
      { success := true, model := some modelName,
        status := some ModelStatus.loaded } ∧
    (ModelService.setupModel env cur lm modelName).currentModel = some m ∧
    (ModelService.setupModel env cur lm modelName).loadedModels = lm ∧
    (ModelService.setupModel env cur lm modelName).saved = [] ∧
    (ModelService.setupModel env cur lm modelName).downloaderInvoked = false ∧
    (ModelService.setupModel env cur lm modelName).loaderLoadInvoked = false ∧
    (ModelService.setupModel env cur lm modelName).progress =
      [((0 : Rat), "Initializing...")] := by
  unfold ModelService.setupModel
  rw [hget]
  simp [Model.isReady, hst, hld]

/-- A setup environment whose repository returns an already Loaded
record. -/
def loadedEnv : SetupEnv :=
  { getModel := some ((Model.new sampleInfo).markLoaded 7),
    downloadSuccess := true, downloadEvents := [],
    pipelineFactory := Except.ok samplePipe, now := 9 }

/-- Claim C7 witness: the idempotence theorem at a concrete Loaded record
whose handle the loader still holds. -/
theorem c7_witness :
    (ModelService.setupModel loadedEnv none [("gpt2-small", samplePipe)]
        "gpt2-small").result =
      { success := true, model := some "gpt2-small",
        status := some ModelStatus.loaded } ∧
    (ModelService.setupModel loadedEnv none [("gpt2-small", samplePipe)]
        "gpt2-small").currentModel = some ((Model.new sampleInfo).markLoaded 7) ∧
    (ModelService.setupModel loadedEnv none [("gpt2-small", samplePipe)]
        "gpt2-small").loadedModels = [("gpt2-small", samplePipe)] ∧
    (ModelService.setupModel loadedEnv none [("gpt2-small", samplePipe)]
        "gpt2-small").saved = [] ∧
    (ModelService.setupModel loadedEnv none [("gpt2-small", samplePipe)]
        "gpt2-small").downloaderInvoked = false ∧
    (ModelService.setupModel loadedEnv none [("gpt2-small", samplePipe)]
        "gpt2-small").loaderLoadInvoked = false ∧
    (ModelService.setupModel loadedEnv none [("gpt2-small", samplePipe)]
        "gpt2-small").progress = [((0 : Rat), "Initializing...")] := by
  exact c7_setup_idempotent loadedEnv none [("gpt2-small", samplePipe)]
    "gpt2-small" ((Model.new sampleInfo).markLoaded 7) rfl rfl (by decide)

/-- Claim C6: generateText rejects with the structured No-model-loaded
failure, invoking neither the downloader nor the loader, whenever no
current model is set or the current record is not Loaded; otherwise it
delegates to the loader and wraps a successful response or a thrown error
into the result contract so no fault propagates. -/
theorem c6_generate_guard_and_wrap (cur : Option Model) (lm : LoadedModels)
    (req : GenerationRequest) (elapsed now : Nat) :
    ((cur = none ∨ ∃ m, cur = some m ∧ m.status ≠ ModelStatus.loaded) →
      ModelService.generateText cur lm req elapsed now =
        { result := { success := false, error := some "No model loaded" },
          loaderGenerateInvoked := false, downloaderInvoked := false }) ∧
    (∀ m, cur = some m → m.status = ModelStatus.loaded →
      (∀ r, TransformersLoader.generate lm req elapsed now = .ok r →
        ModelService.generateText cur lm req elapsed now =
          { result := { success := true, response := some r },
            loaderGenerateInvoked := true, downloaderInvoked := false }) ∧
      (∀ e, TransformersLoader.generate lm req elapsed now = .error e →
        ModelService.generateText cur lm req elapsed now =
          { result := { success := false, error := some e },
            loaderGenerateInvoked := true, downloaderInvoked := false })) := by
  constructor
  · rintro (rfl | ⟨m, rfl, hm⟩)
    · rfl
    · simp [ModelService.generateText, Model.isReady, hm]
  · rintro m rfl hm
    constructor
    · intro r hr
      simp [ModelService.generateText, Model.isReady, hm, hr]
    · intro e he
      simp [ModelService.generateText, Model.isReady, hm, he]

/-- Claim C6 witness: with no model ever set up, generateText returns the
structured failure and touches no collaborator. -/
theorem c6_witness :
    ModelService.generateText none [] { prompt := "hi" } 1 2 =
      { result := { success := false, error := some "No model loaded" },
        loaderGenerateInvoked := false, downloaderInvoked := false } := by
  exact (c6_generate_guard_and_wrap none [] { prompt := "hi" } 1 2).1 (Or.inl rfl)

/-- find? over the replace-in-place map of alistSet locates the new pair. -/
lemma find?_replace {α : Type} (k : String) (v : α) :
    ∀ l : List (String × α), l.any (fun kv => decide (kv.1 = k)) = true →
      (l.map (fun kv => if kv.1 = k then (k, v) else kv)).find?
        (fun kv => decide (kv.1 = k)) = some (k, v) := by
  intro l
  induction l with
  | nil => intro h; simp at h
  | cons kv t ih =>
    intro h
    by_cases hk : kv.1 = k
    · simp [List.find?, hk]
    · have ht : t.any (fun kv => decide (kv.1 = k)) = true := by
        simpa [List.any_cons, hk] using h
      simpa [List.find?, hk] using ih ht

/-- find? over the append branch of alistSet locates the new pair. -/
lemma find?_append_new {α : Type} (k : String) (v : α) :
    ∀ l : List (String × α), l.any (fun kv => decide (kv.1 = k)) = false →
      (l ++ [(k, v)]).find? (fun kv => decide (kv.1 = k)) = some (k, v) := by
  intro l
  induction l with
  | nil => intro _; simp [List.find?]
  | cons kv t ih =>
    intro h
    rw [List.any_cons, Bool.or_eq_false_iff] at h
    obtain ⟨hk, ht⟩ := h
    simpa [List.find?, hk] using ih ht

/-- Looking a key up right after alistSet stored a value under it yields
that value. -/
lemma alistGet_set_self {α : Type} (l : List (String × α)) (k : String) (v : α) :
    alistGet (alistSet l k v) k = some v := by
  unfold alistGet alistSet
  cases hb : l.any (fun kv => decide (kv.1 = k)) with
  | true =>
    rw [if_pos rfl, find?_replace k v l hb]
    rfl
  | false =>
    rw [if_neg (by simp), find?_append_new k v l hb]
    rfl

/-- alistSet never removes a key: any key present before is present
afterwards. -/
lemma alistHas_set_preserves {α : Type} (l : List (String × α))
    (k a : String) (v : α) (h : alistHas l a = true) :
    alistHas (alistSet l k v) a = true := by
  unfold alistHas alistSet at *
  by_cases hc : l.any (fun kv => decide (kv.1 = k)) = true
  · rw [if_pos hc]
    rw [List.any_eq_true] at h
    obtain ⟨kv, hmem, hkv⟩ := h
    rw [List.any_eq_true]
    refine ⟨if kv.1 = k then (k, v) else kv, List.mem_map_of_mem _ hmem, ?_⟩
    by_cases hk : kv.1 = k
    · simp only [decide_eq_true_eq] at hkv
      simp [hk, hk ▸ hkv]
    · simpa [hk] using hkv
  · rw [if_neg hc, List.any_append, h, Bool.true_or]

/-- Claim C3 counterexample: a record saved in state Downloading is
reconstructed by getModel in state NotDownloaded - the restore switch has
no case for the downloading status string - so the save/get round trip
does not preserve every enumerated state. -/
theorem c3_counterexample :
    (((FileModelRepository.getModel (fun _ => none)
          (FileModelRepository.saveModel []
            ((Model.new sampleInfo).markDownloading))
          "gpt2-small" 0).1).map Model.status) =
      some ModelStatus.notDownloaded ∧
    ((Model.new sampleInfo).markDownloading).status = ModelStatus.downloading := by
  decide

/-- Claim C3 amended: for a record whose descriptor passes builder
validation, saveModel followed by getModel reconstructs the identical
descriptor, and the state and non-empty error message round-trip for
NotDownloaded, Downloaded, Loaded and Error; the states Downloading and
Loading are NOT preserved (they fall through the restore switch, so the
theorem excludes them and the counterexample shows Downloading collapsing
to NotDownloaded). -/
theorem c3_roundtrip (known : String → Option Model) (reg : Registry)
    (now : Nat) (m : Model)
    (hname : m.info.name ≠ "") (hhf : m.info.huggingFaceId ≠ "")
    (hver : m.info.version ≠ "") (hpath : m.info.localPath ≠ "")
    (htype : m.info.modelType ≠ "")
    (hdl : m.status ≠ ModelStatus.downloading)
    (hlo : m.status ≠ ModelStatus.loading)
    (herr : m.status = ModelStatus.error → ∃ e, m.errorMessage = some e ∧ e ≠ "") :
    (((FileModelRepository.getModel known (FileModelRepository.saveModel reg m)
        m.info.name now).1).map Model.info) = some m.info ∧
    (((FileModelRepository.getModel known (FileModelRepository.saveModel reg m)
        m.info.name now).1).map Model.status) = some m.status ∧
    (m.status = ModelStatus.error →
      (((FileModelRepository.getModel known (FileModelRepository.saveModel reg m)
          m.info.name now).1).map Model.errorMessage) = some m.errorMessage) := by
  have hget : alistGet (FileModelRepository.saveModel reg m) m.info.name =
      some m.toJSON := alistGet_set_self reg m.info.name m.toJSON
  have hbuild : ((({} : ModelInfoBuilder).setName m.toJSON.info.name
      |>.setHuggingFaceId m.toJSON.info.huggingFaceId
      |>.setVersion m.toJSON.info.version
      |>.setDescriptionOpt m.toJSON.info.description
      |>.setLocalPath m.toJSON.info.localPath
      |>.setModelType m.toJSON.info.modelType
      |>.setSizeGBOpt m.toJSON.info.sizeGB
      |>.setRequiredFiles m.toJSON.info.requiredFiles).build) =
      Except.ok m.info := by
    simp [Model.toJSON, ModelInfoBuilder.setName, ModelInfoBuilder.setHuggingFaceId,
      ModelInfoBuilder.setVersion, ModelInfoBuilder.setDescriptionOpt,
      ModelInfoBuilder.setLocalPath, ModelInfoBuilder.setModelType,
      ModelInfoBuilder.setSizeGBOpt, ModelInfoBuilder.setRequiredFiles,
      ModelInfoBuilder.build, ModelInfoBuilder.strFalsy, hname, hhf, hver,
      hpath, htype]
  unfold FileModelRepository.getModel
  rw [hget]
  simp only [hbuild]
  cases hs : m.status with
  | notDownloaded =>
    simp [Model.toJSON, ModelStatus.toStr, hs, Model.new]
  | downloading => exact absurd hs hdl
  | downloaded =>
    simp [Model.toJSON, ModelStatus.toStr, hs, Model.new, Model.markDownloaded]
  | loading => exact absurd hs hlo
  | loaded =>
    simp [Model.toJSON, ModelStatus.toStr, hs, Model.new, Model.markLoaded]
  | error =>
    obtain ⟨e, he, hne⟩ := herr hs
    simp [Model.toJSON, ModelStatus.toStr, hs, Model.new, Model.markError, he, hne]

/-- Claim C3 witness: the round trip instantiated at a concrete record in
state Error with a non-empty message. -/
theorem c3_witness :
    (((FileModelRepository.getModel (fun _ => none)
        (FileModelRepository.saveModel []
          ((Model.new sampleInfo).markError "Download failed"))
        ((Model.new sampleInfo).markError "Download failed").info.name 5).1).map
        Model.info) =
      some ((Model.new sampleInfo).markError "Download failed").info ∧
    (((FileModelRepository.getModel (fun _ => none)
        (FileModelRepository.saveModel []
          ((Model.new sampleInfo).markError "Download failed"))
        ((Model.new sampleInfo).markError "Download failed").info.name 5).1).map
        Model.status) =
      some ((Model.new sampleInfo).markError "Download failed").status ∧
    (((Model.new sampleInfo).markError "Download failed").status =
        ModelStatus.error →
      (((FileModelRepository.getModel (fun _ => none)
          (FileModelRepository.saveModel []
            ((Model.new sampleInfo).markError "Download failed"))
          ((Model.new sampleInfo).markError "Download failed").info.name 5).1).map
          Model.errorMessage) =
        some ((Model.new sampleInfo).markError "Download failed").errorMessage) := by
  exact c3_roundtrip (fun _ => none) [] 5
    ((Model.new sampleInfo).markError "Download failed")
    (by decide) (by decide) (by decide) (by decide) (by decide)
    (by decide) (by decide)
    (fun _ => ⟨"Download failed", rfl, by decide⟩)

/-- A second fixed descriptor, named a. -/
def infoA : ModelInfo :=
  { name := "a", huggingFaceId := "org/a", version := "1", description := none,
    localPath := "./models/a", modelType := "text-generation", sizeGB := none,
    requiredFiles := ["config.json"] }

/-- A third fixed descriptor, named b. -/
def infoB : ModelInfo :=
  { name := "b", huggingFaceId := "org/b", version := "1", description := none,
    localPath := "./models/b", modelType := "text-generation", sizeGB := none,
    requiredFiles := ["config.json"] }

/-- Environment for a successful full setup of model a. -/
def envA : SetupEnv :=
  { getModel := some (Model.new infoA), downloadSuccess := true,
    downloadEvents := [], pipelineFactory := Except.ok samplePipe, now := 1 }

/-- Environment for a successful full setup of model b. -/
def envB : SetupEnv :=
  { getModel := some (Model.new infoB), downloadSuccess := true,
    downloadEvents := [], pipelineFactory := Except.ok samplePipe, now := 2 }

/-- The trace of setting model a up from a fresh service. -/
def traceA : SetupTrace := ModelService.setupModel envA none [] "a"

/-- The trace of setting model b up right after model a. -/
def traceB : SetupTrace :=
  ModelService.setupModel envB traceA.currentModel traceA.loadedModels "b"

/-- Claim C4 counterexample: after setup(a) succeeds and then setup(b)
succeeds, status() does report b as active, but the loader still holds a
live handle for a - setupModel never asks the loader to release the
previous model, so the at-most-one-active-handle claim fails. -/
theorem c4_counterexample :
    traceA.result.success = true ∧ traceB.result.success = true ∧
    (ModelService.getModelStatus traceB.currentModel).model = some "b" ∧
    TransformersLoader.isModelLoaded traceB.loadedModels "a" = true := by
  decide

/-- Claim C4 amended: after setup(a) succeeds, a succeeding setup(b) that
runs the download and load path makes status() report b as the active
model, but the loader keeps every previously held handle: no unload of a
is ever requested, so the handle for a is still live afterwards. -/
theorem c4_no_unload_on_switch (envB2 : SetupEnv) (cur : Option Model)
    (lm : LoadedModels) (a b : String) (mb : Model)
    (hget : envB2.getModel = some mb) (hname : mb.info.name = b)
    (hnd : mb.status = ModelStatus.notDownloaded)
    (hdl : envB2.downloadSuccess = true)
    (hfac : ∃ pb, envB2.pipelineFactory = Except.ok pb)
    (hhas : alistHas lm a = true) :
    (ModelService.setupModel envB2 cur lm b).result.success = true ∧
    (ModelService.getModelStatus
      (ModelService.setupModel envB2 cur lm b).currentModel).model = some b ∧
    TransformersLoader.isModelLoaded
      (ModelService.setupModel envB2 cur lm b).loadedModels a = true := by
  obtain ⟨pb, hpb⟩ := hfac
  unfold ModelService.setupModel ModelService.setupLoadPhase
  rw [hget]
  simp only [Model.isReady, hnd, hdl, hpb]
  simp only [Model.markDownloading, Model.markDownloaded, Model.markLoading,
    Model.markLoaded, ModelService.getModelStatus, TransformersLoader.isModelLoaded]
  refine ⟨by simp, by simpa using hname, ?_⟩
  simpa using alistHas_set_preserves lm mb.info.name a pb hhas

/-- Claim C4 witness: the amended statement at concrete models a and b
with the loader already holding a handle for a. -/
theorem c4_witness :
    (ModelService.setupModel envB (some (Model.new infoA))
      [("a", samplePipe)] "b").result.success = true ∧
    (ModelService.getModelStatus
      (ModelService.setupModel envB (some (Model.new infoA))
        [("a", samplePipe)] "b").currentModel).model = some "b" ∧
    TransformersLoader.isModelLoaded
      (ModelService.setupModel envB (some (Model.new infoA))
        [("a", samplePipe)] "b").loadedModels "a" = true := by
  exact c4_no_unload_on_switch envB (some (Model.new infoA)) [("a", samplePipe)]
    "a" "b" (Model.new infoB) rfl rfl rfl rfl ⟨samplePipe, rfl⟩ (by decide)

/-- Claim C10: generateText with a ready current record is served by the
FIRST entry of the loader map, whatever record is marked current: the
response carries that first model name while getModelStatus reports the
current record name, so the two can differ. -/
theorem c10_generate_uses_first_entry (m : Model) (a : String) (pa : Pipeline)
    (rest : LoadedModels) (req : GenerationRequest) (elapsed now : Nat)
    (txt : String) (hm : m.status = ModelStatus.loaded)
    (hpa : pa req = Except.ok txt) :
    (ModelService.generateText (some m) ((a, pa) :: rest) req
        elapsed now).result.success = true ∧
    ((ModelService.generateText (some m) ((a, pa) :: rest) req
        elapsed now).result.response.map GenerationResponse.model) = some a ∧
    (ModelService.getModelStatus (some m)).model = some m.info.name := by
  simp [ModelService.generateText, Model.isReady, hm,
    TransformersLoader.generate, hpa, ModelService.getModelStatus]

/-- Claim C10 witness: with handles for a and b loaded in that order and b
marked current, the generated response names a while status names b. -/
theorem c10_witness :
    (ModelService.generateText (some ((Model.new infoB).markLoaded 1))
        [("a", samplePipe), ("b", samplePipe)] { prompt := "hi" }
        3 4).result.success = true ∧
    ((ModelService.generateText (some ((Model.new infoB).markLoaded 1))
        [("a", samplePipe), ("b", samplePipe)] { prompt := "hi" }
        3 4).result.response.map GenerationResponse.model) = some "a" ∧
    (ModelService.getModelStatus
      (some ((Model.new infoB).markLoaded 1))).model = some "b" := by
  exact c10_generate_uses_first_entry ((Model.new infoB).markLoaded 1) "a"
    samplePipe [("b", samplePipe)] { prompt := "hi" } 3 4 "hello world" rfl rfl

/-- Rescaled download progress stays at or above the 10 percent floor. -/
lemma rescale_lb {p : Rat} (h : (0:Rat) ≤ p) :
    (10:Rat) ≤ 10 + p * (0.6:Rat) := by
  have h1 : (0:Rat) ≤ p * (0.6:Rat) := mul_nonneg h (by norm_num)
  linarith

/-- Rescaled download progress stays at or below the 70 percent ceiling. -/
lemma rescale_ub {p : Rat} (h : p ≤ (100:Rat)) :
    (10:Rat) + p * (0.6:Rat) ≤ 70 := by
  have h1 : p * (0.6:Rat) ≤ (100:Rat) * (0.6:Rat) :=
    mul_le_mul_of_nonneg_right h (by norm_num)
  have h2 : (100:Rat) * (0.6:Rat) = 60 := by norm_num
  linarith

/-- Rescaling preserves order of download progress values. -/
lemma rescale_mono {a b : Rat} (h : a ≤ b) :
    (10:Rat) + a * (0.6:Rat) ≤ 10 + b * (0.6:Rat) := by
  have h1 : a * (0.6:Rat) ≤ b * (0.6:Rat) :=
    mul_le_mul_of_nonneg_right h (by norm_num)
  linarith

/-- The percentages delivered by the download block, in normal form. -/
lemma p1_map_fst (ev : List Rat) :
    (([((0:Rat), "Initializing...")] ++ [((10:Rat), "Downloading model...")] ++
      ev.map (fun p => ((10:Rat) + p * (0.6:Rat), "Downloading model..."))).map
        Prod.fst) =
    (0:Rat) :: (10:Rat) :: ev.map (fun p => (10:Rat) + p * (0.6:Rat)) := by
  simp [List.map_map, Function.comp]

/-- The percentages delivered by the download block are non-decreasing. -/
lemma chain_download (ev : List Rat) (hchain : List.Chain' (· ≤ ·) ev)
    (hbound : ∀ p ∈ ev, (0:Rat) ≤ p ∧ p ≤ 100) :
    List.Chain' (· ≤ ·)
      ((0:Rat) :: (10:Rat) :: ev.map (fun p => (10:Rat) + p * (0.6:Rat))) := by
  rw [List.chain'_cons']
  refine ⟨?_, ?_⟩
  · intro y hy
    simp only [List.head?_cons, Option.mem_def, Option.some.injEq] at hy
    subst hy
    norm_num
  · rw [List.chain'_cons']
    refine ⟨?_, ?_⟩
    · intro y hy
      cases ev with
      | nil => simp at hy
      | cons p t =>
        simp only [List.map_cons, List.head?_cons, Option.mem_def,
          Option.some.injEq] at hy
        subst hy
        exact rescale_lb (hbound p (List.mem_cons_self p t)).1
    · rw [List.chain'_map]
      exact hchain.imp (fun a b h => rescale_mono h)

/-- Every percentage delivered by the download block is at most 70. -/
lemma le70_download (ev : List Rat)
    (hbound : ∀ p ∈ ev, (0:Rat) ≤ p ∧ p ≤ 100) :
    ∀ x ∈ (0:Rat) :: (10:Rat) :: ev.map (fun p => (10:Rat) + p * (0.6:Rat)),
      x ≤ (70:Rat) := by
  intro x hx
  rcases List.mem_cons.1 hx with rfl | hx
  · norm_num
  rcases List.mem_cons.1 hx with rfl | hx
  · norm_num
  obtain ⟨p, hp, rfl⟩ := List.mem_map.1 hx
  exact rescale_ub (hbound p hp).2

/-- Every entry the download block reports under the downloading stage
sits in the band from 10 to 70. -/
lemma band_download (ev : List Rat)
    (hbound : ∀ p ∈ ev, (0:Rat) ≤ p ∧ p ≤ 100) :
    ∀ pr ∈ ([((0:Rat), "Initializing...")] ++
        [((10:Rat), "Downloading model...")] ++
        ev.map (fun p => ((10:Rat) + p * (0.6:Rat), "Downloading model..."))),
      pr.2 = "Downloading model..." → (10:Rat) ≤ pr.1 ∧ pr.1 ≤ 70 := by
  intro pr hpr hst
  simp only [List.mem_append, List.mem_singleton, List.mem_map] at hpr
  rcases hpr with (rfl | rfl) | ⟨p, hp, rfl⟩
  · exact absurd hst (by decide)
  · exact ⟨by norm_num, by norm_num⟩
  · exact ⟨rescale_lb (hbound p hp).1, rescale_ub (hbound p hp).2⟩

/-- Appending one further percentage entry that dominates everything so
far keeps the delivered sequence non-decreasing. -/
lemma chain_append_single {l : List Rat} {c : Rat}
    (hchain : List.Chain' (· ≤ ·) l) (hle : ∀ x ∈ l, x ≤ c) :
    List.Chain' (· ≤ ·) (l ++ [c]) := by
  rw [List.chain'_append]
  refine ⟨hchain, List.chain'_singleton c, ?_⟩
  intro x hx y hy
  simp only [List.head?_cons, Option.mem_def, Option.some.injEq] at hy
  subst hy
  exact hle x (List.mem_of_mem_getLast? hx)

/-- Progress facts for the load half of setupModel: assuming the progress
delivered so far is non-decreasing, capped at 70 and respects the
download band, the whole call keeps the sequence non-decreasing, keeps
the band property, and on success the last delivered percentage is
100. -/
lemma loadPhase_progress_spec (env : SetupEnv) (cur : Option Model)
    (lm : LoadedModels) (modelName : String) (model : Model)
    (progress : List (Rat × String)) (saved : List Model) (dl : Bool)
    (hchain : List.Chain' (· ≤ ·) (progress.map Prod.fst))
    (hle : ∀ x ∈ progress.map Prod.fst, x ≤ (70:Rat))
    (hband : ∀ pr ∈ progress, pr.2 = "Downloading model..." →
      (10:Rat) ≤ pr.1 ∧ pr.1 ≤ 70) :
    List.Chain' (· ≤ ·)
      ((ModelService.setupLoadPhase env cur lm modelName model progress saved
        dl).progress.map Prod.fst) ∧
    (∀ pr ∈ (ModelService.setupLoadPhase env cur lm modelName model progress
        saved dl).progress,
      pr.2 = "Downloading model..." → (10:Rat) ≤ pr.1 ∧ pr.1 ≤ 70) ∧
    ((ModelService.setupLoadPhase env cur lm modelName model progress saved
        dl).result.success = true →
      ((ModelService.setupLoadPhase env cur lm modelName model progress saved
        dl).progress.map Prod.fst).getLast? = some 100) := by
  have h70 : List.Chain' (· ≤ ·)
      (progress.map Prod.fst ++ [(70:Rat)]) := chain_append_single hchain hle
  have h70le : ∀ x ∈ progress.map Prod.fst ++ [(70:Rat)], x ≤ (100:Rat) := by
    intro x hx
    rcases List.mem_append.1 hx with hx | hx
    · exact le_trans (hle x hx) (by norm_num)
    · simp only [List.mem_singleton] at hx
      subst hx
      norm_num
  have h100le : ∀ x ∈ progress.map Prod.fst, x ≤ (100:Rat) :=
    fun x hx => le_trans (hle x hx) (by norm_num)
  unfold ModelService.setupLoadPhase
  by_cases hst : model.status = ModelStatus.downloaded
  · rw [if_pos hst]
    cases hpf : env.pipelineFactory with
    | ok pipe =>
      refine ⟨?_, ?_, fun _ => ?_⟩
      · simp only [List.map_append]
        exact chain_append_single (l := progress.map Prod.fst ++ [(70:Rat)])
          h70 h70le
      · intro pr hpr hst2
        simp only [List.mem_append, List.mem_singleton] at hpr
        rcases hpr with (hpr | rfl) | rfl
        · exact hband pr hpr hst2
        · exact absurd hst2 (by decide)
        · exact absurd hst2 (by decide)
      · simp only [List.map_append]
        exact List.getLast?_concat _
    | error e =>
      refine ⟨?_, ?_, ?_⟩
      · simp only [List.map_append]
        exact h70
      · intro pr hpr hst2
        simp only [List.mem_append, List.mem_singleton] at hpr
        rcases hpr with hpr | rfl
        · exact hband pr hpr hst2
        · exact absurd hst2 (by decide)
      · intro h
        exact absurd h (by simp)
  · rw [if_neg hst]
    refine ⟨?_, ?_, fun _ => ?_⟩
    · simp only [List.map_append]
      exact chain_append_single hchain h100le
    · intro pr hpr hst2
      simp only [List.mem_append, List.mem_singleton] at hpr
      rcases hpr with hpr | rfl
      · exact hband pr hpr hst2
      · exact absurd hst2 (by decide)
    · simp only [List.map_append]
      exact List.getLast?_concat _

/-- The condition under which setupModel takes the already-loaded
short-circuit: the resolved record is ready and the loader holds a handle
for the requested name. -/
def shortCircuits (env : SetupEnv) (lm : LoadedModels) (modelName : String) :
    Bool :=
  match env.getModel with
  | some m => m.isReady && TransformersLoader.isModelLoaded lm modelName
  | none => false

/-- Claim C5 amended: within one setupModel call whose downloader reports
non-decreasing progress values in the range 0 to 100, the delivered
percentages are monotonically non-decreasing and every percentage
delivered under the downloading stage lies in the band from 10 to 70; on
a successful return the final delivered percentage is 100 EXCEPT on the
already-loaded short-circuit path, which returns success after delivering
only the initial 0 percent event. -/
theorem c5_progress_monotone_band_final (env : SetupEnv) (cur : Option Model)
    (lm : LoadedModels) (modelName : String)
    (hchain : List.Chain' (· ≤ ·) env.downloadEvents)
    (hbound : ∀ p ∈ env.downloadEvents, (0:Rat) ≤ p ∧ p ≤ 100) :
    List.Chain' (· ≤ ·)
      ((ModelService.setupModel env cur lm modelName).progress.map Prod.fst) ∧
    (∀ pr ∈ (ModelService.setupModel env cur lm modelName).progress,
      pr.2 = "Downloading model..." → (10:Rat) ≤ pr.1 ∧ pr.1 ≤ 70) ∧
    ((ModelService.setupModel env cur lm modelName).result.success = true →
      shortCircuits env lm modelName = false →
      ((ModelService.setupModel env cur lm modelName).progress.map
        Prod.fst).getLast? = some 100) := by
  unfold ModelService.setupModel
  split
  next =>
    refine ⟨List.chain'_singleton _, ?_, ?_⟩
    · intro pr hpr hst
      simp only [List.mem_singleton] at hpr
      subst hpr
      exact absurd hst (by decide)
    · intro hs
      exact absurd hs (by simp)
  next model heq =>
    split
    next hrc =>
      refine ⟨List.chain'_singleton _, ?_, ?_⟩
      · intro pr hpr hst
        simp only [List.mem_singleton] at hpr
        subst hpr
        exact absurd hst (by decide)
      · intro _ hsc
        have hsc2 : shortCircuits env lm modelName = true := by
          unfold shortCircuits
          rw [heq]
          exact hrc
        exact absurd (hsc2.symm.trans hsc) (by decide)
    next hrc =>
      split
      next hnd =>
        split
        next hdls =>
          obtain ⟨l1, l2, l3⟩ := loadPhase_progress_spec env cur lm modelName
            (model.markDownloading.markDownloaded)
            ([((0:Rat), "Initializing...")] ++
              [((10:Rat), "Downloading model...")] ++
              env.downloadEvents.map
                (fun p => ((10:Rat) + p * (0.6:Rat), "Downloading model...")))
            [model.markDownloading, model.markDownloading.markDownloaded] true
            (by rw [p1_map_fst]
                exact chain_download env.downloadEvents hchain hbound)
            (by rw [p1_map_fst]
                exact le70_download env.downloadEvents hbound)
            (band_download env.downloadEvents hbound)
          exact ⟨l1, l2, fun hs _ => l3 hs⟩
        next hdls =>
          refine ⟨?_, ?_, ?_⟩
          · rw [p1_map_fst]
            exact chain_download env.downloadEvents hchain hbound
          · exact band_download env.downloadEvents hbound
          · intro hs
            exact absurd hs (by simp)
      next hnd =>
        obtain ⟨l1, l2, l3⟩ := loadPhase_progress_spec env cur lm modelName
          model [((0:Rat), "Initializing...")] [] false
          (List.chain'_singleton _)
          (by intro x hx
              simp only [List.map_cons, List.map_nil, List.mem_singleton] at hx
              subst hx
              norm_num)
          (by intro pr hpr hst
              simp only [List.mem_singleton] at hpr
              subst hpr
              exact absurd hst (by decide))
        exact ⟨l1, l2, fun hs _ => l3 hs⟩

/-- Claim C5 counterexample: on the already-loaded short-circuit path the
call returns success but the final (and only) delivered percentage is 0,
not 100, refuting the claim that every successful return ends at 100. -/
theorem c5_counterexample :
    (ModelService.setupModel loadedEnv none [("gpt2-small", samplePipe)]
      "gpt2-small").result.success = true ∧
    ((ModelService.setupModel loadedEnv none [("gpt2-small", samplePipe)]
      "gpt2-small").progress.map Prod.fst).getLast? = some 0 ∧
    ((ModelService.setupModel loadedEnv none [("gpt2-small", samplePipe)]
      "gpt2-small").progress.map Prod.fst).getLast? ≠ some 100 := by
  decide

/-- Environment for a full download-and-load setup reporting three
download progress values. -/
def c5Env : SetupEnv :=
  { getModel := some (Model.new sampleInfo), downloadSuccess := true,
    downloadEvents := [20, 50, 100], pipelineFactory := Except.ok samplePipe,
    now := 3 }

/-- Claim C5 witness: the amended progress theorem instantiated at a
concrete full setup run with download events 20, 50, 100. -/
theorem c5_witness :
    List.Chain' (· ≤ ·)
      ((ModelService.setupModel c5Env none [] "gpt2-small").progress.map
        Prod.fst) ∧
    (∀ pr ∈ (ModelService.setupModel c5Env none [] "gpt2-small").progress,
      pr.2 = "Downloading model..." → (10:Rat) ≤ pr.1 ∧ pr.1 ≤ 70) ∧
    ((ModelService.setupModel c5Env none [] "gpt2-small").result.success = true →
      shortCircuits c5Env [] "gpt2-small" = false →
      ((ModelService.setupModel c5Env none [] "gpt2-small").progress.map
        Prod.fst).getLast? = some 100) := by
  exact c5_progress_monotone_band_final c5Env none [] "gpt2-small"
    (by norm_num [c5Env, List.chain'_cons, List.chain'_singleton]) (by decide)

end LlamaApi
